import Mathlib

/-!
Shallow embedding of `dolphin-lib` (src/stripe/index.js and
src/mailer/providers/mandrill.js) for checking the repository's
natural-language specification.

Modelling conventions:
* JavaScript values are `JSValue`.  JS numbers are modelled as `Int`
  (every value the repository's claims exercise is an integer literal);
  NaN is not a `num` — the result of JS numeric coercion is modelled as
  `Option Int`, with `none` standing for NaN.
* `new Error(msg)` is the value `JSValue.error msg`.
* A JS object literal is `JSValue.obj` over its field list in source
  order; the repository never builds an object with a duplicate key.
* Each SDK method of the stripe vendor takes a Node-style completion
  callback `(err, result)`; the whole vendor is a function
  `StripeVendor : VendorCall → JSValue × JSValue` giving the pair the
  callback will receive for a given call.  The mandrill vendor uses
  separate success/error callbacks, modelled by `MandrillResult`.
* Running an operation against a vendor yields a `Trace`: the list of
  vendor calls it issued, in order, and the final outcome of the
  promise it returned (`Q.reject` / `deferred.reject` → `Outcome.reject`,
  `deferred.resolve` → `Outcome.resolve`).
-/

inductive JSValue where
  | undefined
  | null
  | bool (b : Bool)
  | num (n : Int)
  | str (s : String)
  | error (msg : String)
  | obj (fields : List (String × JSValue))
  | arr (elems : List JSValue)

/-- JS truthiness: `undefined`, `null`, `false`, `0`, `""` are falsy;
objects (including `Error`) and arrays are truthy.  (NaN, also falsy in
JS, has no `num` representative here; see the header note.) -/
def truthy : JSValue → Bool
  | .undefined => false
  | .null => false
  | .bool b => b
  | .num n => n != 0
  | .str s => s != ""
  | .error _ => true
  | .obj _ => true
  | .arr _ => true

/-- Surrounding-whitespace trim on a character list. -/
def jsTrim (cs : List Char) : List Char :=
  ((cs.dropWhile Char.isWhitespace).reverse.dropWhile Char.isWhitespace).reverse

/-- A nonempty run of decimal digits. -/
def decDigits (cs : List Char) : Bool :=
  cs ≠ [] && cs.all Char.isDigit

/-- Value of a run of decimal digits. -/
def digitsVal (cs : List Char) : Nat :=
  cs.foldl (fun a c => a * 10 + (c.toNat - 48)) 0

/-- Numeric value of a decimal-integer string after trimming, JS-style:
the empty (or all-whitespace) string coerces to 0, an optionally signed
digit string to its value, anything else to NaN (`none`).  (Full JS also
accepts float/hex literals; the repository's claims only exercise
integer literals, non-numeric words and the empty string.) -/
def strToNumber (s : String) : Option Int :=
  match jsTrim s.data with
  | [] => some 0
  | '-' :: rest => if decDigits rest then some (-(digitsVal rest : Int)) else none
  | '+' :: rest => if decDigits rest then some (digitsVal rest : Int) else none
  | cs => if decDigits cs then some (digitsVal cs : Int) else none

/-- JS `ToNumber`, as used by `isNaN(x)`: `none` is NaN.
`undefined → NaN`, `null → 0`, booleans → 0/1, strings via
`strToNumber`; plain objects and `Error` values coerce to NaN.
(A JS array coerces through its string form; the repository never
coerces an array, so `none` is used.) -/
def toNumber : JSValue → Option Int
  | .undefined => none
  | .null => some 0
  | .bool b => some (if b then 1 else 0)
  | .num n => some n
  | .str s => strToNumber s
  | .error _ => none
  | .obj _ => none
  | .arr _ => none

/-- JS `a || b`. -/
def jsOr (a b : JSValue) : JSValue := if truthy a then a else b

/-- First binding of a key in a field list (the repository never builds
an object with a duplicate key). -/
def lookupField : List (String × JSValue) → String → JSValue
  | [], _ => .undefined
  | (k, v) :: rest, key => if k = key then v else lookupField rest key

/-- JS property access `v.key`, as the repository uses it on vendor
results (`charges.data`, `result.code`, `content.html`). -/
def getField (v : JSValue) (key : String) : JSValue :=
  match v with
  | .obj fields => lookupField fields key
  | .error m => if key = "message" then .str m else .undefined
  | _ => .undefined

/-- The stripe-SDK methods the repository can reach.  `customersUpdate`
is exposed by the vendor SDK but never issued by this repository; it is
included so that its absence from a trace can be stated. -/
inductive VendorCall where
  | chargesCreate (req : JSValue)
  | chargesRetrieve (chargeId : JSValue)
  | chargesList (req : JSValue)
  | customersCreate (req : JSValue)
  | customersRetrieve (userId : JSValue) (options : Option JSValue)
  | customersUpdate (userId : JSValue) (req : JSValue)
  | customersDel (userId : JSValue)
  | customersList (req : JSValue)
  | customersCreateSource (userId : JSValue) (req : JSValue)
  | customersRetrieveCard (userId : JSValue) (cardId : JSValue)
  | customersDeleteCard (userId : JSValue) (cardId : JSValue)
  | customersListCards (userId : JSValue)
  | tokensCreate (req : JSValue)
  | tokensRetrieve (tokenId : JSValue)
  | accountsCreate (req : JSValue)

/-- Final state of the promise an operation returned. -/
inductive Outcome where
  | reject (e : JSValue)
  | resolve (v : JSValue)

/-- The vendor calls an invocation issued, in order, and the promise
outcome. -/
structure Trace (κ : Type) where
  calls : List κ
  outcome : Outcome

/-- A validation failure: no vendor call, promise already rejected with
`new Error(msg)`. -/
def failTrace {κ : Type} (msg : String) : Trace κ :=
  { calls := [], outcome := .reject (.error msg) }

/-- The payment vendor: the `(err, result)` pair a given SDK call will
hand to its Node-style callback. -/
def StripeVendor := VendorCall → JSValue × JSValue

/-- The `charge` request object of `createTransaction`. -/
def chargeRequest (amount stripeToken currency : JSValue) : JSValue :=
  .obj [("amount", amount), ("currency", jsOr currency (.str "usd")), ("customer", stripeToken)]

/-- The `paginate` request object of `listTransactions` and `listUsers`. -/
def paginateRequest (limit : JSValue) : JSValue :=
  .obj [("limit", jsOr limit (.num 10))]

/-- The `customer` request object of `createUser`. -/
def customerRequest (email metadata description : JSValue) : JSValue :=
  .obj [("email", email), ("metadata", metadata), ("description", jsOr description (.str ""))]

/-- The `cardObj` request object of `createToken`. -/
def cardObjRequest (cardNumber cvv expirationMonth expirationYear : JSValue) : JSValue :=
  .obj [("card", .obj [("number", cardNumber), ("exp_month", expirationMonth),
    ("exp_year", expirationYear), ("cvc", cvv)])]

/-- The `account` request object of `createAccount`. -/
def accountRequest (isManaged email : JSValue) : JSValue :=
  .obj [("managed", isManaged), ("email", email)]

/-- The `cardDetails` request object of `createCard`. -/
def cardDetailsRequest (cardNumber expirationMonth expirationYear cvv : JSValue) : JSValue :=
  .obj [("source", .obj [("object", .str "card"), ("exp_month", expirationMonth),
    ("exp_year", expirationYear), ("number", cardNumber), ("cvc", cvv)])]

/-- `Stripe.prototype.createTransaction(amount, stripeToken, currency)`. -/
def Stripe.createTransaction (V : StripeVendor) (amount stripeToken currency : JSValue) :
    Trace VendorCall :=
  if toNumber amount = none then
    failTrace "amount is required and must be a number"
  else if truthy stripeToken = false then
    failTrace "stripeToken required"
  else
    let charge := chargeRequest amount stripeToken currency
    let r := V (.chargesCreate charge)
    { calls := [.chargesCreate charge],
      outcome := if truthy r.1 then .reject r.1 else .resolve r.2 }

/-- `Stripe.prototype.getTransaction(chargeId)`. -/
def Stripe.getTransaction (V : StripeVendor) (chargeId : JSValue) : Trace VendorCall :=
  if truthy chargeId = false then
    failTrace "chargeId required"
  else
    let r := V (.chargesRetrieve chargeId)
    { calls := [.chargesRetrieve chargeId],
      outcome := if truthy r.1 then .reject r.1 else .resolve r.2 }

/-- `Stripe.prototype.listTransactions(limit)`; resolves with
`charges.data`. -/
def Stripe.listTransactions (V : StripeVendor) (limit : JSValue) : Trace VendorCall :=
  let paginate := paginateRequest limit
  let r := V (.chargesList paginate)
  { calls := [.chargesList paginate],
    outcome := if truthy r.1 then .reject r.1 else .resolve (getField r.2 "data") }

/-- `Stripe.prototype.createUser(email, metadata, description)`. -/
def Stripe.createUser (V : StripeVendor) (email metadata description : JSValue) : Trace VendorCall :=
  if truthy email = false then
    failTrace "email required"
  else if truthy metadata = false then
    failTrace "metadata required"
  else
    let customer := customerRequest email metadata description
    let r := V (.customersCreate customer)
    { calls := [.customersCreate customer],
      outcome := if truthy r.1 then .reject r.1 else .resolve r.2 }

/-- `Stripe.prototype.getUser(userId)`. -/
def Stripe.getUser (V : StripeVendor) (userId : JSValue) : Trace VendorCall :=
  if truthy userId = false then
    failTrace "userId required"
  else
    let r := V (.customersRetrieve userId none)
    { calls := [.customersRetrieve userId none],
      outcome := if truthy r.1 then .reject r.1 else .resolve r.2 }

/-- `Stripe.prototype.updateUser(userId, userObject)` — the source calls
`stripe.customers.retrieve(userId, userObject, cb)`, not an update. -/
def Stripe.updateUser (V : StripeVendor) (userId userObject : JSValue) : Trace VendorCall :=
  if truthy userId = false then
    failTrace "userId required"
  else if truthy userObject = false then
    failTrace "userObject required"
  else
    let r := V (.customersRetrieve userId (some userObject))
    { calls := [.customersRetrieve userId (some userObject)],
      outcome := if truthy r.1 then .reject r.1 else .resolve r.2 }

/-- `Stripe.prototype.deleteUser(userId)`. -/
def Stripe.deleteUser (V : StripeVendor) (userId : JSValue) : Trace VendorCall :=
  if truthy userId = false then
    failTrace "userId required"
  else
    let r := V (.customersDel userId)
    { calls := [.customersDel userId],
      outcome := if truthy r.1 then .reject r.1 else .resolve r.2 }

/-- `Stripe.prototype.listUsers(limit)`; resolves with `customers.data`. -/
def Stripe.listUsers (V : StripeVendor) (limit : JSValue) : Trace VendorCall :=
  let paginate := paginateRequest limit
  let r := V (.customersList paginate)
  { calls := [.customersList paginate],
    outcome := if truthy r.1 then .reject r.1 else .resolve (getField r.2 "data") }

/-- `Stripe.prototype.createToken(cardNumber, cvv, expirationMonth,
expirationYear)`. -/
def Stripe.createToken (V : StripeVendor)
    (cardNumber cvv expirationMonth expirationYear : JSValue) : Trace VendorCall :=
  if truthy cardNumber = false then
    failTrace "cardNumber required"
  else if truthy cvv = false then
    failTrace "cvv required"
  else if truthy expirationMonth = false then
    failTrace "expirationMonth required"
  else if truthy expirationYear = false then
    failTrace "expirationYear required"
  else
    let cardObj := cardObjRequest cardNumber cvv expirationMonth expirationYear
    let r := V (.tokensCreate cardObj)
    { calls := [.tokensCreate cardObj],
      outcome := if truthy r.1 then .reject r.1 else .resolve r.2 }

/-- `Stripe.prototype.getToken(tokenId)`. -/
def Stripe.getToken (V : StripeVendor) (tokenId : JSValue) : Trace VendorCall :=
  if truthy tokenId = false then
    failTrace "tokenId required"
  else
    let r := V (.tokensRetrieve tokenId)
    { calls := [.tokensRetrieve tokenId],
      outcome := if truthy r.1 then .reject r.1 else .resolve r.2 }

/-- `Stripe.prototype.createAccount(isManaged, email)` — no validation. -/
def Stripe.createAccount (V : StripeVendor) (isManaged email : JSValue) : Trace VendorCall :=
  let account := accountRequest isManaged email
  let r := V (.accountsCreate account)
  { calls := [.accountsCreate account],
    outcome := if truthy r.1 then .reject r.1 else .resolve r.2 }

/-- `Stripe.prototype.createCard(userId, cardNumber, expirationMonth,
expirationYear, cvv)`. -/
def Stripe.createCard (V : StripeVendor)
    (userId cardNumber expirationMonth expirationYear cvv : JSValue) : Trace VendorCall :=
  if truthy userId = false then
    failTrace "userId required"
  else if truthy cardNumber = false then
    failTrace "cardNumber required"
  else if truthy expirationMonth = false then
    failTrace "expirationMonth required"
  else if truthy expirationYear = false then
    failTrace "expirationYear required"
  else if truthy cvv = false then
    failTrace "cvv required"
  else
    let cardDetails := cardDetailsRequest cardNumber expirationMonth expirationYear cvv
    let r := V (.customersCreateSource userId cardDetails)
    { calls := [.customersCreateSource userId cardDetails],
      outcome := if truthy r.1 then .reject r.1 else .resolve r.2 }

/-- `Stripe.prototype.getCard(userId, cardId)` — the source checks
`cardId` first, then `userId`. -/
def Stripe.getCard (V : StripeVendor) (userId cardId : JSValue) : Trace VendorCall :=
  if truthy cardId = false then
    failTrace "cardId required"
  else if truthy userId = false then
    failTrace "userId required"
  else
    let r := V (.customersRetrieveCard userId cardId)
    { calls := [.customersRetrieveCard userId cardId],
      outcome := if truthy r.1 then .reject r.1 else .resolve r.2 }

/-- `Stripe.prototype.deleteCard(userId, cardId)` — the source checks
`cardId` first, then `userId`. -/
def Stripe.deleteCard (V : StripeVendor) (userId cardId : JSValue) : Trace VendorCall :=
  if truthy cardId = false then
    failTrace "cardId required"
  else if truthy userId = false then
    failTrace "userId required"
  else
    let r := V (.customersDeleteCard userId cardId)
    { calls := [.customersDeleteCard userId cardId],
      outcome := if truthy r.1 then .reject r.1 else .resolve r.2 }

/-- `Stripe.prototype.listCards(userId)`; resolves with `cards.data`. -/
def Stripe.listCards (V : StripeVendor) (userId : JSValue) : Trace VendorCall :=
  if truthy userId = false then
    failTrace "userId required"
  else
    let r := V (.customersListCards userId)
    { calls := [.customersListCards userId],
      outcome := if truthy r.1 then .reject r.1 else .resolve (getField r.2 "data") }

/-- The mandrill-SDK methods `getContent` can reach. -/
inductive MandrillCall where
  | templatesInfo (req : JSValue)
  | templatesRender (req : JSValue)

/-- A mandrill SDK call invokes either its success callback or its error
callback. -/
inductive MandrillResult where
  | success (v : JSValue)
  | failure (e : JSValue)

/-- The template vendor: which callback a given SDK call will invoke,
and with what value. -/
def MandrillVendor := MandrillCall → MandrillResult

/-- The request object of `getContent`'s `templates.info` call. -/
def infoRequest (templateName : JSValue) : JSValue :=
  .obj [("name", templateName)]

/-- The `mergeVars` list built by `getContent`'s `for (var param in
params)` loop: one entry per key of `params`, pairing the key's name
with its value, in iteration order. -/
def mergeVarsList (params : List (String × JSValue)) : List JSValue :=
  params.map (fun p => .obj [("name", .str p.1), ("content", p.2)])

/-- The request object of `getContent`'s `templates.render` call. -/
def renderRequest (templateName : JSValue) (params : List (String × JSValue))
    (result : JSValue) : JSValue :=
  .obj [("template_name", templateName), ("template_content", getField result "code"),
    ("merge_vars", .arr (mergeVarsList params))]

/-- `MandrillProvider.prototype.getContent(templateName, params)` (body
continued): `params` is the JS object's own-key/value list in its
iteration order. -/
def MandrillProvider.getContent (V : MandrillVendor) (templateName : JSValue)
    (params : List (String × JSValue)) : Trace MandrillCall :=
  let infoReq := infoRequest templateName
  match V (.templatesInfo infoReq) with
  | .failure e => { calls := [MandrillCall.templatesInfo infoReq], outcome := .reject e }
  | .success result =>
    let renderReq := renderRequest templateName params result
    match V (.templatesRender renderReq) with
    | .failure e =>
      { calls := [MandrillCall.templatesInfo infoReq, MandrillCall.templatesRender renderReq],
        outcome := .reject e }
    | .success content =>
      { calls := [MandrillCall.templatesInfo infoReq, MandrillCall.templatesRender renderReq],
        outcome := .resolve (getField content "html") }

/-- Node-style callback bridging, as every stripe operation's callback
performs it: a truthy `err` rejects the future with `err` unmodified,
otherwise the future resolves with the success payload unmodified. -/
def bridged (r : JSValue × JSValue) : Outcome :=
  if truthy r.1 then .reject r.1 else .resolve r.2

/-- Callback bridging for the three list operations: on success the
future resolves with the payload's `data` collection, not the
pagination envelope. -/
def bridgedData (r : JSValue × JSValue) : Outcome :=
  if truthy r.1 then .reject r.1 else .resolve (getField r.2 "data")

/-- A concrete vendor whose every callback reports no error and an
`undefined` result; used to evaluate claims at concrete inputs. -/
def V0 : StripeVendor := fun _ => (.undefined, .undefined)

/-- A template vendor whose lookup call fails; used to evaluate the
lookup-failure claim at a concrete input. -/
def Vlookupfail : MandrillVendor := fun _ => .failure (.str "template not found")

/-- A template vendor for the concrete welcome-template scenario: the
lookup succeeds with the template code and the render succeeds with the
substituted html. -/
def Vwelcome : MandrillVendor := fun c =>
  match c with
  | .templatesInfo _ => .success (.obj [("code", .str "<div>\x7b\x7bname\x7d\x7d</div>")])
  | .templatesRender _ => .success (.obj [("html", .str "<div>Ana</div>")])

/-- C4: `createTransaction` with a non-numeric amount (the string
"abc") fails before any vendor call; with amount 500, a stripe token
and no currency argument it issues one charge-create call whose request
carries currency "usd". -/
theorem createTransaction_nonnumeric_and_default_currency (V : StripeVendor) :
    Stripe.createTransaction V (.str "abc") (.str "tok_1") .undefined =
      failTrace "amount is required and must be a number" ∧
    (Stripe.createTransaction V (.num 500) (.str "tok_1") .undefined).calls =
      [.chargesCreate (.obj [("amount", .num 500), ("currency", .str "usd"),
        ("customer", .str "tok_1")])] :=
  ⟨rfl, rfl⟩

/-- C5: `listTransactions` with no argument issues exactly one
charges-list call with limit 10, `listTransactions(25)` issues it with
limit 25, and `listUsers` with no argument defaults to limit 10 as
well. -/
theorem list_operations_limit_defaults (V : StripeVendor) :
    (Stripe.listTransactions V .undefined).calls =
      [.chargesList (.obj [("limit", .num 10)])] ∧
    (Stripe.listTransactions V (.num 25)).calls =
      [.chargesList (.obj [("limit", .num 25)])] ∧
    (Stripe.listUsers V .undefined).calls =
      [.customersList (.obj [("limit", .num 10)])] :=
  ⟨rfl, rfl, rfl⟩

/-- C9: a limit argument of 0 — and in fact any falsy limit — makes
`listTransactions` and `listUsers` issue their vendor list call with
the default limit 10. -/
theorem list_limit_falsy_default (V : StripeVendor) (limit : JSValue)
    (h : truthy limit = false) :
    (Stripe.listTransactions V (.num 0)).calls =
      [.chargesList (.obj [("limit", .num 10)])] ∧
    (Stripe.listUsers V (.num 0)).calls =
      [.customersList (.obj [("limit", .num 10)])] ∧
    (Stripe.listTransactions V limit).calls =
      [.chargesList (.obj [("limit", .num 10)])] ∧
    (Stripe.listUsers V limit).calls =
      [.customersList (.obj [("limit", .num 10)])] := by
  refine ⟨rfl, rfl, ?_, ?_⟩ <;>
    simp [Stripe.listTransactions, Stripe.listUsers, paginateRequest, jsOr, h]

theorem list_limit_falsy_default_witness :
    (Stripe.listTransactions V0 (.num 0)).calls =
      [.chargesList (.obj [("limit", .num 10)])] ∧
    (Stripe.listUsers V0 (.num 0)).calls =
      [.customersList (.obj [("limit", .num 10)])] ∧
    (Stripe.listTransactions V0 (.bool false)).calls =
      [.chargesList (.obj [("limit", .num 10)])] ∧
    (Stripe.listUsers V0 (.bool false)).calls =
      [.customersList (.obj [("limit", .num 10)])] := by
  have h := list_limit_falsy_default V0 (.bool false) rfl
  exact ⟨h.1, h.2.1, h.2.2.1, h.2.2.2⟩

/-- C6: after its `userId` and `userObject` checks pass, `updateUser`
issues the vendor's customers-retrieve call (never an update call),
passing the update payload as retrieval options, and its future is the
bridging of that call's callback result. -/
theorem updateUser_issues_retrieve (V : StripeVendor) (userId userObject : JSValue)
    (h1 : truthy userId = true) (h2 : truthy userObject = true) :
    (Stripe.updateUser V userId userObject).calls =
      [.customersRetrieve userId (some userObject)] ∧
    (∀ u r, VendorCall.customersUpdate u r ∉ (Stripe.updateUser V userId userObject).calls) ∧
    (Stripe.updateUser V userId userObject).outcome =
      bridged (V (.customersRetrieve userId (some userObject))) := by
  refine ⟨?_, ?_, ?_⟩ <;> simp [Stripe.updateUser, h1, h2, bridged]

theorem updateUser_issues_retrieve_witness :
    (Stripe.updateUser V0 (.str "cus_1") (.obj [("email", .str "a@b.com")])).calls =
      [.customersRetrieve (.str "cus_1") (some (.obj [("email", .str "a@b.com")]))] ∧
    (∀ u r, VendorCall.customersUpdate u r ∉
      (Stripe.updateUser V0 (.str "cus_1") (.obj [("email", .str "a@b.com")])).calls) ∧
    (Stripe.updateUser V0 (.str "cus_1") (.obj [("email", .str "a@b.com")])).outcome =
      bridged (V0 (.customersRetrieve (.str "cus_1") (some (.obj [("email", .str "a@b.com")])))) :=
  updateUser_issues_retrieve V0 (.str "cus_1") (.obj [("email", .str "a@b.com")]) rfl rfl

/-- C7: when `getContent`'s template-lookup call fails, the future
fails with the lookup error unchanged and the render call is never
issued. -/
theorem getContent_lookup_failure (V : MandrillVendor) (templateName e : JSValue)
    (params : List (String × JSValue))
    (h : V (.templatesInfo (infoRequest templateName)) = .failure e) :
    (MandrillProvider.getContent V templateName params).calls =
      [.templatesInfo (infoRequest templateName)] ∧
    (MandrillProvider.getContent V templateName params).outcome = .reject e ∧
    ∀ req, MandrillCall.templatesRender req ∉
      (MandrillProvider.getContent V templateName params).calls := by
  refine ⟨?_, ?_, ?_⟩ <;> simp [MandrillProvider.getContent, h]

theorem getContent_lookup_failure_witness :
    (MandrillProvider.getContent Vlookupfail (.str "welcome") [("name", .str "Ana")]).calls =
      [.templatesInfo (infoRequest (.str "welcome"))] ∧
    (MandrillProvider.getContent Vlookupfail (.str "welcome") [("name", .str "Ana")]).outcome =
      .reject (.str "template not found") ∧
    ∀ req, MandrillCall.templatesRender req ∉
      (MandrillProvider.getContent Vlookupfail (.str "welcome") [("name", .str "Ana")]).calls :=
  getContent_lookup_failure Vlookupfail (.str "welcome") (.str "template not found")
    [("name", .str "Ana")] rfl

/-- C8: when the template lookup succeeds, the render call receives the
template code from the lookup result together with one merge variable
per key of `params` (key name paired with its value, in iteration
order), and on render success the future resolves with the rendered
html only; concretely, `getContent("welcome", {name: "Ana"})` with
render html `<div>Ana</div>` resolves to exactly that string. -/
theorem getContent_lookup_success_render (V : MandrillVendor) (templateName : JSValue)
    (params : List (String × JSValue)) (result content : JSValue)
    (h : V (.templatesInfo (infoRequest templateName)) = .success result) :
    (MandrillProvider.getContent V templateName params).calls =
      [.templatesInfo (infoRequest templateName),
        .templatesRender (renderRequest templateName params result)] ∧
    getField (renderRequest templateName params result) "template_content" =
      getField result "code" ∧
    getField (renderRequest templateName params result) "merge_vars" =
      .arr (params.map (fun p => .obj [("name", .str p.1), ("content", p.2)])) ∧
    (V (.templatesRender (renderRequest templateName params result)) = .success content →
      (MandrillProvider.getContent V templateName params).outcome =
        .resolve (getField content "html")) ∧
    (MandrillProvider.getContent Vwelcome (.str "welcome") [("name", .str "Ana")]).outcome =
      .resolve (.str "<div>Ana</div>") := by
  refine ⟨?_, rfl, rfl, ?_, rfl⟩
  · cases hr : V (.templatesRender (renderRequest templateName params result)) <;>
      simp [MandrillProvider.getContent, h, hr]
  · intro h2
    simp [MandrillProvider.getContent, h, h2]

theorem getContent_lookup_success_render_witness :
    (MandrillProvider.getContent Vwelcome (.str "welcome") [("name", .str "Ana")]).calls =
      [.templatesInfo (infoRequest (.str "welcome")),
        .templatesRender (renderRequest (.str "welcome") [("name", .str "Ana")]
          (.obj [("code", .str "<div>\x7b\x7bname\x7d\x7d</div>")]))] ∧
    (MandrillProvider.getContent Vwelcome (.str "welcome") [("name", .str "Ana")]).outcome =
      .resolve (.str "<div>Ana</div>") := by
  have h := getContent_lookup_success_render Vwelcome (.str "welcome") [("name", .str "Ana")]
    (.obj [("code", .str "<div>\x7b\x7bname\x7d\x7d</div>")])
    (.obj [("html", .str "<div>Ana</div>")]) rfl
  exact ⟨h.1, h.2.2.2.2⟩

/-- C10: `createTransaction` raises its amount validation error exactly
when JS `isNaN(amount)` holds; `null` and the empty string coerce to 0,
pass the check, and (with a stripe token) a charge-create call is
issued carrying the raw non-numeric amount value. -/
theorem createTransaction_amount_isNaN_iff (V : StripeVendor)
    (amount stripeToken currency : JSValue) (ht : truthy stripeToken = true) :
    (Stripe.createTransaction V amount stripeToken currency =
        failTrace "amount is required and must be a number" ↔ toNumber amount = none) ∧
    toNumber .null = some 0 ∧
    toNumber (.str "") = some 0 ∧
    (Stripe.createTransaction V .null (.str "tok_1") .undefined).calls =
      [.chargesCreate (.obj [("amount", .null), ("currency", .str "usd"),
        ("customer", .str "tok_1")])] ∧
    (Stripe.createTransaction V (.str "") (.str "tok_1") .undefined).calls =
      [.chargesCreate (.obj [("amount", .str ""), ("currency", .str "usd"),
        ("customer", .str "tok_1")])] := by
  refine ⟨⟨?_, ?_⟩, rfl, rfl, rfl, rfl⟩
  · intro heq
    by_contra hne
    have hcalls := congrArg Trace.calls heq
    simp [Stripe.createTransaction, hne, ht, failTrace] at hcalls
  · intro h
    simp [Stripe.createTransaction, h]

theorem createTransaction_amount_isNaN_iff_witness :
    (Stripe.createTransaction V0 .undefined (.str "tok_1") .undefined =
        failTrace "amount is required and must be a number" ↔
      toNumber .undefined = none) ∧
    toNumber .null = some 0 ∧
    toNumber (.str "") = some 0 ∧
    (Stripe.createTransaction V0 .null (.str "tok_1") .undefined).calls =
      [.chargesCreate (.obj [("amount", .null), ("currency", .str "usd"),
        ("customer", .str "tok_1")])] ∧
    (Stripe.createTransaction V0 (.str "") (.str "tok_1") .undefined).calls =
      [.chargesCreate (.obj [("amount", .str ""), ("currency", .str "usd"),
        ("customer", .str "tok_1")])] :=
  createTransaction_amount_isNaN_iff V0 .undefined (.str "tok_1") .undefined rfl

/-- C3 counterexample: `getCard` and `deleteCard` called with both
`userId` and `cardId` missing report the `cardId` error, not the
`userId` error claimed by declaration-order validation. -/
theorem getCard_deleteCard_both_missing_report_cardId :
    (Stripe.getCard V0 .undefined .undefined).outcome =
      .reject (.error "cardId required") ∧
    (Stripe.getCard V0 .undefined .undefined).outcome ≠
      .reject (.error "userId required") ∧
    (Stripe.deleteCard V0 .undefined .undefined).outcome =
      .reject (.error "cardId required") ∧
    (Stripe.deleteCard V0 .undefined .undefined).outcome ≠
      .reject (.error "userId required") := by
  refine ⟨rfl, ?_, rfl, ?_⟩ <;>
    simp [Stripe.getCard, Stripe.deleteCard, V0, failTrace, truthy]

/-- C3 amended: each multi-argument operation validates in a fixed
order and the first failing check determines the error message; that
order is argument-declaration order for every such operation except
`getCard` and `deleteCard`, which check `cardId` before `userId` — with
every required argument missing/invalid each operation reports its
first-checked argument. -/
theorem validation_check_order (V : StripeVendor) :
    (∀ a t c, toNumber a = none → truthy t = false →
      Stripe.createTransaction V a t c =
        failTrace "amount is required and must be a number") ∧
    (∀ e m d, truthy e = false → truthy m = false →
      Stripe.createUser V e m d = failTrace "email required") ∧
    (∀ u o, truthy u = false → truthy o = false →
      Stripe.updateUser V u o = failTrace "userId required") ∧
    (∀ n c m y, truthy n = false → truthy c = false → truthy m = false →
      truthy y = false → Stripe.createToken V n c m y = failTrace "cardNumber required") ∧
    (∀ u n m y c, truthy u = false → truthy n = false → truthy m = false →
      truthy y = false → truthy c = false →
      Stripe.createCard V u n m y c = failTrace "userId required") ∧
    (∀ u cd, truthy u = false → truthy cd = false →
      Stripe.getCard V u cd = failTrace "cardId required") ∧
    (∀ u cd, truthy u = false → truthy cd = false →
      Stripe.deleteCard V u cd = failTrace "cardId required") := by
  refine ⟨?_, ?_, ?_, ?_, ?_, ?_, ?_⟩ <;>
    · intros
      simp_all [Stripe.createTransaction, Stripe.createUser, Stripe.updateUser,
        Stripe.createToken, Stripe.createCard, Stripe.getCard, Stripe.deleteCard]

theorem validation_check_order_witness :
    Stripe.createTransaction V0 .undefined .undefined .undefined =
      failTrace "amount is required and must be a number" ∧
    Stripe.createUser V0 .undefined .undefined .undefined = failTrace "email required" ∧
    Stripe.updateUser V0 .undefined .undefined = failTrace "userId required" ∧
    Stripe.createToken V0 .undefined .undefined .undefined .undefined =
      failTrace "cardNumber required" ∧
    Stripe.createCard V0 .undefined .undefined .undefined .undefined .undefined =
      failTrace "userId required" ∧
    Stripe.getCard V0 .undefined .undefined = failTrace "cardId required" ∧
    Stripe.deleteCard V0 .undefined .undefined = failTrace "cardId required" := by
  obtain ⟨h1, h2, h3, h4, h5, h6, h7⟩ := validation_check_order V0
  exact ⟨h1 _ _ _ rfl rfl, h2 _ _ _ rfl rfl, h3 _ _ rfl rfl, h4 _ _ _ _ rfl rfl rfl rfl,
    h5 _ _ _ _ _ rfl rfl rfl rfl rfl, h6 _ _ rfl rfl, h7 _ _ rfl rfl⟩

/-- C1 counterexample: `createTransaction` called with the required
`amount` argument empty (the empty string) does not return a failed
future naming `amount` — it issues a vendor charge-create call, because
`isNaN("")` is false. -/
theorem createTransaction_empty_amount_reaches_vendor :
    (Stripe.createTransaction V0 (.str "") (.str "tok_1") .undefined).calls =
      [.chargesCreate (.obj [("amount", .str ""), ("currency", .str "usd"),
        ("customer", .str "tok_1")])] ∧
    (Stripe.createTransaction V0 (.str "") (.str "tok_1") .undefined).calls ≠ [] := by
  refine ⟨rfl, ?_⟩
  intro h
  simp [Stripe.createTransaction, V0, toNumber, strToNumber, jsTrim, chargeRequest,
    truthy, jsOr, failTrace, decDigits] at h

/-- C1 amended: for every operation with required arguments, calling it
with any one required argument missing or empty (any falsy value),
the earlier-checked arguments being valid, returns an already-failed
future whose error message names that argument and issues no vendor
call — except `createTransaction`'s `amount`, which is validated by
numeric coercion (`isNaN`): a missing amount fails, but an empty-string
or null amount coerces to 0 and passes. -/
theorem required_arg_validation (V : StripeVendor) :
    (∀ a t c, toNumber a = none →
      Stripe.createTransaction V a t c =
        failTrace "amount is required and must be a number") ∧
    (∀ a t c, toNumber a ≠ none → truthy t = false →
      Stripe.createTransaction V a t c = failTrace "stripeToken required") ∧
    (∀ x, truthy x = false → Stripe.getTransaction V x = failTrace "chargeId required") ∧
    (∀ e m d, truthy e = false → Stripe.createUser V e m d = failTrace "email required") ∧
    (∀ e m d, truthy e = true → truthy m = false →
      Stripe.createUser V e m d = failTrace "metadata required") ∧
    (∀ x, truthy x = false → Stripe.getUser V x = failTrace "userId required") ∧
    (∀ u o, truthy u = false → Stripe.updateUser V u o = failTrace "userId required") ∧
    (∀ u o, truthy u = true → truthy o = false →
      Stripe.updateUser V u o = failTrace "userObject required") ∧
    (∀ x, truthy x = false → Stripe.deleteUser V x = failTrace "userId required") ∧
    (∀ n c m y, truthy n = false →
      Stripe.createToken V n c m y = failTrace "cardNumber required") ∧
    (∀ n c m y, truthy n = true → truthy c = false →
      Stripe.createToken V n c m y = failTrace "cvv required") ∧
    (∀ n c m y, truthy n = true → truthy c = true → truthy m = false →
      Stripe.createToken V n c m y = failTrace "expirationMonth required") ∧
    (∀ n c m y, truthy n = true → truthy c = true → truthy m = true → truthy y = false →
      Stripe.createToken V n c m y = failTrace "expirationYear required") ∧
    (∀ x, truthy x = false → Stripe.getToken V x = failTrace "tokenId required") ∧
    (∀ u n m y c, truthy u = false →
      Stripe.createCard V u n m y c = failTrace "userId required") ∧
    (∀ u n m y c, truthy u = true → truthy n = false →
      Stripe.createCard V u n m y c = failTrace "cardNumber required") ∧
    (∀ u n m y c, truthy u = true → truthy n = true → truthy m = false →
      Stripe.createCard V u n m y c = failTrace "expirationMonth required") ∧
    (∀ u n m y c, truthy u = true → truthy n = true → truthy m = true → truthy y = false →
      Stripe.createCard V u n m y c = failTrace "expirationYear required") ∧
    (∀ u n m y c, truthy u = true → truthy n = true → truthy m = true → truthy y = true →
      truthy c = false → Stripe.createCard V u n m y c = failTrace "cvv required") ∧
    (∀ u cd, truthy cd = false → Stripe.getCard V u cd = failTrace "cardId required") ∧
    (∀ u cd, truthy cd = true → truthy u = false →
      Stripe.getCard V u cd = failTrace "userId required") ∧
    (∀ u cd, truthy cd = false → Stripe.deleteCard V u cd = failTrace "cardId required") ∧
    (∀ u cd, truthy cd = true → truthy u = false →
      Stripe.deleteCard V u cd = failTrace "userId required") ∧
    (∀ x, truthy x = false → Stripe.listCards V x = failTrace "userId required") := by
  refine ⟨?_, ?_, ?_, ?_, ?_, ?_, ?_, ?_, ?_, ?_, ?_, ?_, ?_, ?_, ?_, ?_, ?_, ?_, ?_, ?_,
    ?_, ?_, ?_, ?_⟩ <;>
    · intros
      simp_all [Stripe.createTransaction, Stripe.getTransaction, Stripe.createUser,
        Stripe.getUser, Stripe.updateUser, Stripe.deleteUser, Stripe.createToken,
        Stripe.getToken, Stripe.createCard, Stripe.getCard, Stripe.deleteCard,
        Stripe.listCards]

theorem required_arg_validation_witness :
    Stripe.createTransaction V0 .undefined (.str "tok_1") .undefined =
      failTrace "amount is required and must be a number" ∧
    Stripe.createTransaction V0 (.num 500) .undefined .undefined =
      failTrace "stripeToken required" ∧
    Stripe.getTransaction V0 .undefined = failTrace "chargeId required" ∧
    Stripe.createUser V0 .undefined (.obj []) .undefined = failTrace "email required" ∧
    Stripe.createUser V0 (.str "a@b.com") .undefined .undefined =
      failTrace "metadata required" ∧
    Stripe.getUser V0 .undefined = failTrace "userId required" ∧
    Stripe.updateUser V0 .undefined (.obj []) = failTrace "userId required" ∧
    Stripe.updateUser V0 (.str "cus_1") .undefined = failTrace "userObject required" ∧
    Stripe.deleteUser V0 .undefined = failTrace "userId required" ∧
    Stripe.createToken V0 .undefined (.str "123") (.num 1) (.num 2030) =
      failTrace "cardNumber required" ∧
    Stripe.createToken V0 (.str "4242") .undefined (.num 1) (.num 2030) =
      failTrace "cvv required" ∧
    Stripe.createToken V0 (.str "4242") (.str "123") .undefined (.num 2030) =
      failTrace "expirationMonth required" ∧
    Stripe.createToken V0 (.str "4242") (.str "123") (.num 1) .undefined =
      failTrace "expirationYear required" ∧
    Stripe.getToken V0 .undefined = failTrace "tokenId required" ∧
    Stripe.createCard V0 .undefined (.str "4242") (.num 1) (.num 2030) (.str "123") =
      failTrace "userId required" ∧
    Stripe.createCard V0 (.str "cus_1") .undefined (.num 1) (.num 2030) (.str "123") =
      failTrace "cardNumber required" ∧
    Stripe.createCard V0 (.str "cus_1") (.str "4242") .undefined (.num 2030) (.str "123") =
      failTrace "expirationMonth required" ∧
    Stripe.createCard V0 (.str "cus_1") (.str "4242") (.num 1) .undefined (.str "123") =
      failTrace "expirationYear required" ∧
    Stripe.createCard V0 (.str "cus_1") (.str "4242") (.num 1) (.num 2030) .undefined =
      failTrace "cvv required" ∧
    Stripe.getCard V0 (.str "cus_1") .undefined = failTrace "cardId required" ∧
    Stripe.getCard V0 .undefined (.str "card_1") = failTrace "userId required" ∧
    Stripe.deleteCard V0 (.str "cus_1") .undefined = failTrace "cardId required" ∧
    Stripe.deleteCard V0 .undefined (.str "card_1") = failTrace "userId required" ∧
    Stripe.listCards V0 .undefined = failTrace "userId required" := by
  obtain ⟨h1, h2, h3, h4, h5, h6, h7, h8, h9, h10, h11, h12, h13, h14, h15, h16, h17,
    h18, h19, h20, h21, h22, h23, h24⟩ := required_arg_validation V0
  exact ⟨h1 _ _ _ rfl, h2 _ _ _ (by decide) rfl, h3 _ rfl, h4 _ _ _ rfl,
    h5 _ _ _ rfl rfl, h6 _ rfl, h7 _ _ rfl, h8 _ _ rfl rfl, h9 _ rfl,
    h10 _ _ _ _ rfl, h11 _ _ _ _ rfl rfl, h12 _ _ _ _ rfl rfl rfl,
    h13 _ _ _ _ rfl rfl rfl rfl, h14 _ rfl, h15 _ _ _ _ _ rfl,
    h16 _ _ _ _ _ rfl rfl, h17 _ _ _ _ _ rfl rfl rfl,
    h18 _ _ _ _ _ rfl rfl rfl rfl, h19 _ _ _ _ _ rfl rfl rfl rfl rfl,
    h20 _ _ rfl, h21 _ _ rfl rfl, h22 _ _ rfl, h23 _ _ rfl rfl, h24 _ rfl⟩

/-- C2: for every PaymentClient operation whose preconditions pass,
exactly one vendor call is issued and the returned future is the
bridging of that call's callback: a callback error rejects the future
with the error unmodified, a callback success resolves it with the
payload unmodified — except the three list operations, which resolve
with the payload's inner `data` collection. -/
theorem callback_bridging (V : StripeVendor) :
    (∀ a t c, toNumber a ≠ none → truthy t = true →
      (Stripe.createTransaction V a t c).calls = [.chargesCreate (chargeRequest a t c)] ∧
      (Stripe.createTransaction V a t c).outcome =
        bridged (V (.chargesCreate (chargeRequest a t c)))) ∧
    (∀ x, truthy x = true →
      (Stripe.getTransaction V x).calls = [.chargesRetrieve x] ∧
      (Stripe.getTransaction V x).outcome = bridged (V (.chargesRetrieve x))) ∧
    (∀ l, (Stripe.listTransactions V l).calls = [.chargesList (paginateRequest l)] ∧
      (Stripe.listTransactions V l).outcome =
        bridgedData (V (.chargesList (paginateRequest l)))) ∧
    (∀ e m d, truthy e = true → truthy m = true →
      (Stripe.createUser V e m d).calls = [.customersCreate (customerRequest e m d)] ∧
      (Stripe.createUser V e m d).outcome =
        bridged (V (.customersCreate (customerRequest e m d)))) ∧
    (∀ x, truthy x = true →
      (Stripe.getUser V x).calls = [.customersRetrieve x none] ∧
      (Stripe.getUser V x).outcome = bridged (V (.customersRetrieve x none))) ∧
    (∀ u o, truthy u = true → truthy o = true →
      (Stripe.updateUser V u o).calls = [.customersRetrieve u (some o)] ∧
      (Stripe.updateUser V u o).outcome = bridged (V (.customersRetrieve u (some o)))) ∧
    (∀ x, truthy x = true →
      (Stripe.deleteUser V x).calls = [.customersDel x] ∧
      (Stripe.deleteUser V x).outcome = bridged (V (.customersDel x))) ∧
    (∀ l, (Stripe.listUsers V l).calls = [.customersList (paginateRequest l)] ∧
      (Stripe.listUsers V l).outcome =
        bridgedData (V (.customersList (paginateRequest l)))) ∧
    (∀ n c m y, truthy n = true → truthy c = true → truthy m = true → truthy y = true →
      (Stripe.createToken V n c m y).calls = [.tokensCreate (cardObjRequest n c m y)] ∧
      (Stripe.createToken V n c m y).outcome =
        bridged (V (.tokensCreate (cardObjRequest n c m y)))) ∧
    (∀ x, truthy x = true →
      (Stripe.getToken V x).calls = [.tokensRetrieve x] ∧
      (Stripe.getToken V x).outcome = bridged (V (.tokensRetrieve x))) ∧
    (∀ g e, (Stripe.createAccount V g e).calls = [.accountsCreate (accountRequest g e)] ∧
      (Stripe.createAccount V g e).outcome =
        bridged (V (.accountsCreate (accountRequest g e)))) ∧
    (∀ u n m y c, truthy u = true → truthy n = true → truthy m = true → truthy y = true →
      truthy c = true →
      (Stripe.createCard V u n m y c).calls =
        [.customersCreateSource u (cardDetailsRequest n m y c)] ∧
      (Stripe.createCard V u n m y c).outcome =
        bridged (V (.customersCreateSource u (cardDetailsRequest n m y c)))) ∧
    (∀ u cd, truthy u = true → truthy cd = true →
      (Stripe.getCard V u cd).calls = [.customersRetrieveCard u cd] ∧
      (Stripe.getCard V u cd).outcome = bridged (V (.customersRetrieveCard u cd))) ∧
    (∀ u cd, truthy u = true → truthy cd = true →
      (Stripe.deleteCard V u cd).calls = [.customersDeleteCard u cd] ∧
      (Stripe.deleteCard V u cd).outcome = bridged (V (.customersDeleteCard u cd))) ∧
    (∀ x, truthy x = true →
      (Stripe.listCards V x).calls = [.customersListCards x] ∧
      (Stripe.listCards V x).outcome = bridgedData (V (.customersListCards x))) := by
  refine ⟨?_, ?_, ?_, ?_, ?_, ?_, ?_, ?_, ?_, ?_, ?_, ?_, ?_, ?_, ?_⟩ <;>
    · intros
      constructor <;>
        simp_all [Stripe.createTransaction, Stripe.getTransaction, Stripe.listTransactions,
          Stripe.createUser, Stripe.getUser, Stripe.updateUser, Stripe.deleteUser,
          Stripe.listUsers, Stripe.createToken, Stripe.getToken, Stripe.createAccount,
          Stripe.createCard, Stripe.getCard, Stripe.deleteCard, Stripe.listCards,
          bridged, bridgedData]

theorem callback_bridging_witness :
    (Stripe.createTransaction V0 (.num 500) (.str "tok_1") .undefined).calls =
      [.chargesCreate (chargeRequest (.num 500) (.str "tok_1") .undefined)] ∧
    (Stripe.createTransaction V0 (.num 500) (.str "tok_1") .undefined).outcome =
      bridged (V0 (.chargesCreate (chargeRequest (.num 500) (.str "tok_1") .undefined))) ∧
    (Stripe.getTransaction V0 (.str "ch_1")).outcome =
      bridged (V0 (.chargesRetrieve (.str "ch_1"))) ∧
    (Stripe.listTransactions V0 .undefined).outcome =
      bridgedData (V0 (.chargesList (paginateRequest .undefined))) ∧
    (Stripe.createUser V0 (.str "a@b.com") (.obj []) .undefined).outcome =
      bridged (V0 (.customersCreate (customerRequest (.str "a@b.com") (.obj []) .undefined))) ∧
    (Stripe.getUser V0 (.str "cus_1")).outcome =
      bridged (V0 (.customersRetrieve (.str "cus_1") none)) ∧
    (Stripe.updateUser V0 (.str "cus_1") (.obj [])).outcome =
      bridged (V0 (.customersRetrieve (.str "cus_1") (some (.obj [])))) ∧
    (Stripe.deleteUser V0 (.str "cus_1")).outcome =
      bridged (V0 (.customersDel (.str "cus_1"))) ∧
    (Stripe.listUsers V0 .undefined).outcome =
      bridgedData (V0 (.customersList (paginateRequest .undefined))) ∧
    (Stripe.createToken V0 (.str "4242") (.str "123") (.num 1) (.num 2030)).outcome =
      bridged (V0 (.tokensCreate
        (cardObjRequest (.str "4242") (.str "123") (.num 1) (.num 2030)))) ∧
    (Stripe.getToken V0 (.str "tok_1")).outcome =
      bridged (V0 (.tokensRetrieve (.str "tok_1"))) ∧
    (Stripe.createAccount V0 (.bool true) (.str "a@b.com")).outcome =
      bridged (V0 (.accountsCreate (accountRequest (.bool true) (.str "a@b.com")))) ∧
    (Stripe.createCard V0 (.str "cus_1") (.str "4242") (.num 1) (.num 2030)
        (.str "123")).outcome =
      bridged (V0 (.customersCreateSource (.str "cus_1")
        (cardDetailsRequest (.str "4242") (.num 1) (.num 2030) (.str "123")))) ∧
    (Stripe.getCard V0 (.str "cus_1") (.str "card_1")).outcome =
      bridged (V0 (.customersRetrieveCard (.str "cus_1") (.str "card_1"))) ∧
    (Stripe.deleteCard V0 (.str "cus_1") (.str "card_1")).outcome =
      bridged (V0 (.customersDeleteCard (.str "cus_1") (.str "card_1"))) ∧
    (Stripe.listCards V0 (.str "cus_1")).outcome =
      bridgedData (V0 (.customersListCards (.str "cus_1"))) := by
  obtain ⟨h1, h2, h3, h4, h5, h6, h7, h8, h9, h10, h11, h12, h13, h14, h15⟩ :=
    callback_bridging V0
  exact ⟨(h1 _ _ _ (by decide) (by decide)).1, (h1 _ _ _ (by decide) (by decide)).2,
    (h2 _ (by decide)).2, (h3 _).2, (h4 _ _ _ (by decide) (by decide)).2,
    (h5 _ (by decide)).2, (h6 _ _ (by decide) (by decide)).2,
    (h7 _ (by decide)).2, (h8 _).2,
    (h9 _ _ _ _ (by decide) (by decide) (by decide) (by decide)).2,
    (h10 _ (by decide)).2, (h11 _ _).2,
    (h12 _ _ _ _ _ (by decide) (by decide) (by decide) (by decide) (by decide)).2,
    (h13 _ _ (by decide) (by decide)).2, (h14 _ _ (by decide) (by decide)).2,
    (h15 _ (by decide)).2⟩
